import Mathlib

/-!
Shallow embedding of `py7z.py` (module `py7z` of the `lazy-py7z` repository).

The module wraps an external archiving executable.  Each of the three
operations (`archive_create`, `archive_test`, `archive_extract`) validates its
arguments, assembles an argument vector, runs the executable once through
`subprocess.check_output`, decodes the captured standard output and checks it
for the literal marker `Everything is Ok`.

The embedding splits each Python function into a pure "plan" (validation plus
command construction, everything before the `subprocess.check_output` call) and
a generic execution step.  Python exceptions become the `Err` type; the
filesystem and the child process are abstracted by an `Env` record; a `Trace`
records which commands were actually handed to the subprocess machinery,
so that "no process is spawned" is expressible.
-/

namespace Py7z

/-- Python exceptions that `py7z.py` can raise:
`ValueError` (duplicate basename), `AssertionError` (failed `assert`),
`NotImplementedError` (double-quote in password), and
`subprocess.CalledProcessError` (raised by `check_output` on non-zero exit). -/
inductive Err where
  | valueError (msg : String)
  | assertionError (msg : String)
  | notImplementedError (msg : String)
  | calledProcessError (returncode : Int) (output : String)
deriving DecidableEq, Repr

/-- The ambient environment of one call: the resolved executable path
(module-level `EXE_PATH`), `os.path.abspath`, `os.path.isdir`,
`os.path.isfile`, and the child process (`run cmd` returns the exit status and
the decoded captured standard output of running the argument vector `cmd`). -/
structure Env where
  exePath : String
  abspath : String → String
  isdir : String → Bool
  isfile : String → Bool
  run : List String → Int × String

/-- The observable outcome of one call: the argument vectors actually passed
to `subprocess.check_output` (empty when validation failed first), and the
returned text or the exception. -/
structure Trace where
  spawned : List (List String)
  result : Except Err String
deriving Repr

/-- Python whitespace as used by `str.strip()` / `str.split()`. -/
def pyIsSpace (c : Char) : Bool :=
  c = ' ' || c = '\t' || c = '\n' || c = '\r' || c = '\x0b' || c = '\x0c'

/-- Python `str.strip()`: drop whitespace from both ends. -/
def pyStrip (s : String) : String :=
  ⟨((s.data.dropWhile pyIsSpace).reverse.dropWhile pyIsSpace).reverse⟩

/-- Helper for `pySplit`: accumulate the current (reversed) word. -/
def pySplitAux : List Char → List Char → List String
  | [], acc => if acc.isEmpty then [] else [⟨acc.reverse⟩]
  | c :: cs, acc =>
    if pyIsSpace c then
      if acc.isEmpty then pySplitAux cs [] else ⟨acc.reverse⟩ :: pySplitAux cs []
    else
      pySplitAux cs (c :: acc)

/-- Python `str.split()` with no separator: split on runs of whitespace,
discarding empty words. -/
def pySplit (s : String) : List String := pySplitAux s.data []

/-- `os.path.basename` (posix): everything after the last `/`. -/
def basename (p : String) : String :=
  ⟨(p.data.reverse.takeWhile (fun c => c ≠ '/')).reverse⟩

/-- Does `pat` occur at the head of `l`? -/
def leadsWith : List Char → List Char → Bool
  | [], _ => true
  | _ :: _, [] => false
  | a :: as, b :: bs => a = b && leadsWith as bs

/-- Does `pat` occur somewhere in `l`? -/
def hasSub (pat : List Char) : List Char → Bool
  | [] => leadsWith pat []
  | c :: cs => leadsWith pat (c :: cs) || hasSub pat cs

/-- Python's substring test `pat in hay`. -/
def strContainsSub (hay pat : String) : Bool := hasSub pat.data hay.data

/-- Python's character test `'"' in s`. -/
def hasQuote (s : String) : Bool := s.data.any (fun c => c = '"')

/-- The number of distinct elements of a list — the size of the Python set
the elements are added to. -/
def countDistinct : List String → Nat
  | [] => 0
  | x :: xs => if x ∈ xs then countDistinct xs else countDistinct xs + 1

/-- The duplicate-basename scan of `archive_create` (lines 47-56): the paths
are grouped by basename into a dict of sets built with `setdefault` (so
identical path strings collapse), and the loop raises on the first basename,
in key insertion order, whose set holds more than one path.  Key insertion
order is first-occurrence order over `paths.map basename`, and scanning that
list directly with `find?` returns the same first basename, since repeated
keys repeat the same test. -/
def firstDupName (paths : List String) : Option String :=
  (paths.map basename).find?
    (fun k => decide (2 ≤ countDistinct (paths.filter (fun p => basename p = k))))

/-- The success marker looked for in the decoded output. -/
def marker : String := "Everything is Ok"

/-- The sentinel password `'\x7f'` (ASCII DEL) substituted by `archive_test`
and `archive_extract` when no password is given. -/
def sentinelPassword : String := "\x7f"

/-- `subprocess.check_output(command).decode('cp1252')` followed by the
`assert 'Everything is Ok' in ret_val` check: `check_output` raises
`CalledProcessError` when the child exits non-zero; otherwise the decoded
output is returned when it contains the marker and the assert fires when
it does not. -/
def runExcept (env : Env) (command : List String) : Except Err String :=
  let r := env.run command
  if r.1 ≠ 0 then .error (.calledProcessError r.1 r.2)
  else if strContainsSub r.2 marker then .ok r.2
  else .error (.assertionError ("something went wrong: " ++ r.2))

/-- Run a plan: a validation error spawns nothing; an assembled command is
passed to the subprocess machinery exactly once. -/
def exec (env : Env) : Except Err (List String) → Trace
  | .error e => ⟨[], .error e⟩
  | .ok command => ⟨[command], runExcept env command⟩

/-- The password block of `archive_create` (lines 99-109) followed by
appending the absolutized input paths (line 112). -/
def createPasswordStep (command : List String) (password : Option String)
    (encrypt_headers : Bool) (todo_paths : List String) : Except Err (List String) :=
  match password with
  | some p =>
    if p = "" then .error (.assertionError "password must be at least one character long")
    else if hasQuote p then .error (.notImplementedError "double-quote not supported")
    else .ok (command ++ ["-p" ++ p] ++ (if encrypt_headers then ["-mhe"] else []) ++ todo_paths)
  | none => .ok (command ++ todo_paths)

/-- Validation and command construction of `archive_create` (lines 42-112):
everything before the `subprocess.check_output` call. -/
def archive_create_plan (env : Env) (files_and_folders : List String) (archive : String)
    (password : Option String) (encrypt_headers : Bool) (overwrite : Bool) (verbose : Int)
    (volumes : Option String) : Except Err (List String) :=
  let archive_path := env.abspath archive
  let todo_paths := files_and_folders.map env.abspath
  match firstDupName files_and_folders with
  | some item_name => .error (.valueError item_name)
  | none =>
    if env.isdir archive_path then .error (.assertionError "dir already exists at output path")
    else if !(overwrite || !env.isfile archive_path) then
      .error (.assertionError "file already exists at output path")
    else
      let command := [env.exePath, "a", archive_path, "-t7z", "-m0=lzma2", "-mx=9",
                      "-bb" ++ toString verbose, "-bt"]
      let command := command ++ (if overwrite then ["-aoa"] else [])
      match volumes with
      | some v =>
        if v = "" then .error (.assertionError "")
        else
          createPasswordStep (command ++ (pySplit (pyStrip v)).map (fun size => "-v" ++ size))
            password encrypt_headers todo_paths
      | none => createPasswordStep command password encrypt_headers todo_paths

/-- `archive_create(files_and_folders, archive, password=None, encrypt_headers=False,
overwrite=False, verbose=3, volumes=None)`. -/
def archive_create (env : Env) (files_and_folders : List String) (archive : String)
    (password : Option String := none) (encrypt_headers : Bool := false)
    (overwrite : Bool := false) (verbose : Int := 3) (volumes : Option String := none) : Trace :=
  exec env (archive_create_plan env files_and_folders archive password encrypt_headers
    overwrite verbose volumes)

/-- Validation and command construction of `archive_test` (lines 131-151). -/
def archive_test_plan (env : Env) (archive : String) (password : Option String)
    (verbose : Int) : Except Err (List String) :=
  let archive_path := env.abspath archive
  let password := password.getD sentinelPassword
  if password = "" then .error (.assertionError "password must be at least one character long")
  else if hasQuote password then .error (.notImplementedError "double-quote not supported")
  else .ok [env.exePath, "t", archive_path, "-p" ++ password, "-bb" ++ toString verbose, "-bt"]

/-- `archive_test(archive, password=None, verbose=3)`. -/
def archive_test (env : Env) (archive : String) (password : Option String := none)
    (verbose : Int := 3) : Trace :=
  exec env (archive_test_plan env archive password verbose)

/-- The `overwrite` argument of `archive_extract`: Python passes `True`,
`False`, or a mode-code string. -/
inductive OverwriteMode where
  | bool (b : Bool)
  | str (s : String)
deriving DecidableEq, Repr

/-- Lines 197-200: `True` becomes `'a'` (overwrite all), `False` becomes
`'s'` (skip); a string is kept as given. -/
def owCode : OverwriteMode → String
  | .bool true => "a"
  | .bool false => "s"
  | .str s => s

/-- The reserved path characters rejected in the destination basename. -/
def reservedChars : List Char := ['\\', '/', ':', '*', '?', '"', '<', '>', '|']

/-- Does the string contain one of the reserved path characters? -/
def hasReserved (s : String) : Bool := s.data.any (fun c => reservedChars.contains c)

/-- Validation and command construction of `archive_extract` (lines 173-217). -/
def archive_extract_plan (env : Env) (archive : String) (into_dir : Option String)
    (password : Option String) (flat : Bool) (overwrite : OverwriteMode)
    (verbose : Int) : Except Err (List String) :=
  let archive_path := env.abspath archive
  if !env.isfile archive_path then .error (.assertionError "archive does not exist at provided path")
  else
    let password := password.getD sentinelPassword
    if password = "" then .error (.assertionError "password must be at least one character long")
    else
      let into_dir := into_dir.getD "."
      let into_dir := env.abspath (pyStrip into_dir)
      if into_dir = "" then
        .error (.assertionError "output dir name must be at least one character long")
      else if hasReserved (basename into_dir) then
        .error (.assertionError "invalid dir name")
      else if env.isfile into_dir then
        .error (.assertionError "file exists at output dir location, cannot create folder")
      else if hasQuote password then
        .error (.notImplementedError "double-quote not supported")
      else
        let ow := owCode overwrite
        if !(ow = "a" || ow = "s" || ow = "u" || ow = "t") then .error (.assertionError "")
        else .ok [env.exePath, if flat then "e" else "x", "-o" ++ into_dir,
                  "-p" ++ password, "-ao" ++ ow, "-bb" ++ toString verbose, "-bt",
                  archive_path]

/-- `archive_extract(archive, into_dir=None, password=None, flat=False,
overwrite=True, verbose=3)`. -/
def archive_extract (env : Env) (archive : String) (into_dir : Option String := none)
    (password : Option String := none) (flat : Bool := false)
    (overwrite : OverwriteMode := .bool true) (verbose : Int := 3) : Trace :=
  exec env (archive_extract_plan env archive into_dir password flat overwrite verbose)

/-- Is the result an `AssertionError` or a `ValueError` — the two exception
classes the validation code raises? -/
def Err.isValidation : Err → Bool
  | .valueError _ => true
  | .assertionError _ => true
  | _ => false

/-- Is the result the unsupported-feature (`NotImplementedError`) failure? -/
def Err.isUnsupported : Err → Bool
  | .notImplementedError _ => true
  | _ => false

/-- Did the trace end in the unsupported-feature failure? -/
def Trace.failedUnsupported (t : Trace) : Bool :=
  match t.result with
  | .error e => e.isUnsupported
  | .ok _ => false

/-- The error a plan stops with, if any. -/
def errOf : Except Err (List String) → Option Err
  | .error e => some e
  | .ok _ => none

/-- An environment where no path exists and the child always succeeds with
the success marker as its whole output. -/
def envOk : Env :=
  ⟨"7z.exe", fun p => "/abs/" ++ p, fun _ => false, fun _ => false,
   fun _ => (0, "Everything is Ok")⟩

/-- An environment where the archive path exists as a file, the destination
is clean, and the child exits non-zero while printing the success marker. -/
def envExitNonzero : Env :=
  ⟨"7z.exe", fun p => "/abs/" ++ p, fun _ => false, fun _ => true,
   fun _ => (2, "Everything is Ok")⟩

/-- An environment where every path is an existing directory. -/
def envAllDirs : Env :=
  ⟨"7z.exe", fun p => "/abs/" ++ p, fun _ => true, fun _ => false,
   fun _ => (0, "Everything is Ok")⟩

/-- An environment where only the resolved archive path `/abs/a.7z` exists,
as a file. -/
def envArch : Env :=
  ⟨"7z.exe", fun p => "/abs/" ++ p, fun _ => false, fun s => s == "/abs/a.7z",
   fun _ => (0, "Everything is Ok")⟩

/-! ### Helper lemmas about the duplicate-basename scan -/

theorem countDistinct_pos_of_mem {a : String} :
    ∀ {l : List String}, a ∈ l → 1 ≤ countDistinct l := by
  intro l
  induction l with
  | nil => intro h; cases h
  | cons x xs ih =>
    intro h
    by_cases hx : x ∈ xs
    · rcases List.mem_cons.mp h with rfl | hmem
      · simpa [countDistinct, hx] using ih hx
      · simpa [countDistinct, hx] using ih hmem
    · simp [countDistinct, hx]

theorem two_le_countDistinct_of_two_mem {a b : String} :
    ∀ {l : List String}, a ∈ l → b ∈ l → a ≠ b → 2 ≤ countDistinct l := by
  intro l
  induction l with
  | nil => intro h; cases h
  | cons x xs ih =>
    intro ha hb hne
    by_cases hx : x ∈ xs
    · have ha' : a ∈ xs := by rcases List.mem_cons.mp ha with rfl | h; exacts [hx, h]
      have hb' : b ∈ xs := by rcases List.mem_cons.mp hb with rfl | h; exacts [hx, h]
      simpa [countDistinct, hx] using ih ha' hb' hne
    · simp only [countDistinct, hx, if_neg, ite_false]
      rcases List.mem_cons.mp ha with rfl | ha' <;> rcases List.mem_cons.mp hb with rfl | hb'
      · exact absurd rfl hne
      · have := countDistinct_pos_of_mem hb'
        omega
      · have := countDistinct_pos_of_mem ha'
        omega
      · have := ih ha' hb' hne
        omega

theorem exists_two_of_two_le_countDistinct :
    ∀ {l : List String}, 2 ≤ countDistinct l → ∃ a b, a ∈ l ∧ b ∈ l ∧ a ≠ b := by
  intro l
  induction l with
  | nil => intro h; simp [countDistinct] at h
  | cons x xs ih =>
    intro h
    by_cases hx : x ∈ xs
    · simp only [countDistinct, hx, ite_true, if_pos] at h
      obtain ⟨a, b, ha, hb, hne⟩ := ih h
      exact ⟨a, b, List.mem_cons_of_mem _ ha, List.mem_cons_of_mem _ hb, hne⟩
    · simp only [countDistinct, hx, if_neg, ite_false] at h
      have h1 : 1 ≤ countDistinct xs := by omega
      cases xs with
      | nil => simp [countDistinct] at h1
      | cons y t =>
        refine ⟨x, y, List.mem_cons_self _ _,
          List.mem_cons_of_mem _ (List.mem_cons_self _ _), fun hxy => ?_⟩
        exact hx (hxy ▸ List.mem_cons_self y t)

theorem firstDupName_isSome_of_dup {paths : List String} {p q : String}
    (hp : p ∈ paths) (hq : q ∈ paths) (hne : p ≠ q) (hb : basename p = basename q) :
    ∃ k, firstDupName paths = some k := by
  rw [← Option.isSome_iff_exists, firstDupName, List.find?_isSome]
  refine ⟨basename p, List.mem_map_of_mem basename hp, ?_⟩
  rw [decide_eq_true_eq]
  have hp' : p ∈ paths.filter (fun r => basename r = basename p) := by
    simp [List.mem_filter, hp]
  have hq' : q ∈ paths.filter (fun r => basename r = basename p) := by
    simp [List.mem_filter, hq, hb]
  exact two_le_countDistinct_of_two_mem hp' hq' hne

theorem firstDupName_spec {paths : List String} {k : String}
    (h : firstDupName paths = some k) :
    ∃ p q, p ∈ paths ∧ q ∈ paths ∧ p ≠ q ∧ basename p = k ∧ basename q = k := by
  have hpred := List.find?_some h
  rw [decide_eq_true_eq] at hpred
  obtain ⟨a, b, ha, hb, hab⟩ := exists_two_of_two_le_countDistinct hpred
  simp only [List.mem_filter, decide_eq_true_eq] at ha hb
  exact ⟨a, b, ha.1, hb.1, hab, ha.2, hb.2⟩

/-- A trace result fixed to `runExcept` of the spawned command. -/
theorem exec_result_of_mem {env : Env} {plan : Except Err (List String)}
    {cmd : List String} (h : cmd ∈ (exec env plan).spawned) :
    (exec env plan).result = runExcept env cmd := by
  cases plan with
  | error e => simp [exec] at h
  | ok c =>
    simp only [exec, List.mem_singleton] at h
    simp [exec, h]

/-- A string containing a double quote is not empty. -/
theorem hasQuote_ne_empty {p : String} (h : hasQuote p = true) : p ≠ "" := by
  intro he
  subst he
  simp [hasQuote] at h

/-! ### Claims -/

/-- C1 counterexample: with a child process that exits with status 2 while
printing exactly the success marker, `archive_test` spawns the process, the
marker is present in the decoded output, and yet the call fails with
`CalledProcessError` instead of returning the decoded text — so success is
not determined solely by the marker regardless of exit code. -/
theorem C1_counterexample :
    strContainsSub "Everything is Ok" marker = true ∧
    (archive_test envExitNonzero "a.7z" none 3).spawned =
      [["7z.exe", "t", "/abs/a.7z", "-p\x7f", "-bb3", "-bt"]] ∧
    (archive_test envExitNonzero "a.7z" none 3).result =
      .error (.calledProcessError 2 "Everything is Ok") :=
  ⟨rfl, rfl, rfl⟩

/-- C1 (amended): once a command is spawned, the call returns the decoded
output exactly when the child exits with status 0 and the marker occurs in
that output; a non-zero exit fails (as `CalledProcessError`) even when the
marker is present, and a zero exit without the marker also fails. -/
theorem C1_success_requires_zero_exit_and_marker :
    (∀ env cmd out, runExcept env cmd = .ok out ↔
      ((env.run cmd).1 = 0 ∧ strContainsSub (env.run cmd).2 marker = true ∧
        out = (env.run cmd).2)) ∧
    (∀ env cmd, (env.run cmd).1 ≠ 0 →
      runExcept env cmd = .error (.calledProcessError (env.run cmd).1 (env.run cmd).2)) ∧
    (∀ env files archive password encrypt_headers overwrite verbose volumes cmd,
      cmd ∈ (archive_create env files archive password encrypt_headers overwrite
        verbose volumes).spawned →
      (archive_create env files archive password encrypt_headers overwrite
        verbose volumes).result = runExcept env cmd) ∧
    (∀ env archive password verbose cmd,
      cmd ∈ (archive_test env archive password verbose).spawned →
      (archive_test env archive password verbose).result = runExcept env cmd) ∧
    (∀ env archive into_dir password flat overwrite verbose cmd,
      cmd ∈ (archive_extract env archive into_dir password flat overwrite
        verbose).spawned →
      (archive_extract env archive into_dir password flat overwrite
        verbose).result = runExcept env cmd) := by
  refine ⟨?_, ?_, ?_, ?_, ?_⟩
  · intro env cmd out
    simp only [runExcept]
    split
    · rename_i h
      simp [h]
    · rename_i h
      rw [ne_eq, not_not] at h
      split
      · rename_i hm
        simp [h, hm, eq_comm]
      · rename_i hm
        simp [h, hm]
  · intro env cmd h
    simp [runExcept, h]
  · intro env files archive password encrypt_headers overwrite verbose volumes cmd h
    exact exec_result_of_mem h
  · intro env archive password verbose cmd h
    exact exec_result_of_mem h
  · intro env archive into_dir password flat overwrite verbose cmd h
    exact exec_result_of_mem h

/-- C1 witness: the spawned-command clause for `archive_test` applied at a
concrete environment and command. -/
theorem C1_witness :
    (archive_test envOk "a.7z" none 3).result =
      runExcept envOk ["7z.exe", "t", "/abs/a.7z", "-p\x7f", "-bb3", "-bt"] :=
  C1_success_requires_zero_exit_and_marker.2.2.2.1 envOk "a.7z" none 3
    ["7z.exe", "t", "/abs/a.7z", "-p\x7f", "-bb3", "-bt"] (by decide)

/-- C2: a call to create whose input-path list contains two distinct paths
sharing the same basename fails with a `ValueError` naming a duplicated
basename, and no external process is spawned. -/
theorem C2_create_duplicate_basename (env : Env) (files : List String) (archive : String)
    (password : Option String) (encrypt_headers overwrite : Bool) (verbose : Int)
    (volumes : Option String) (p q : String) (hp : p ∈ files) (hq : q ∈ files)
    (hne : p ≠ q) (hb : basename p = basename q) :
    ∃ name,
      (∃ a b, a ∈ files ∧ b ∈ files ∧ a ≠ b ∧ basename a = name ∧ basename b = name) ∧
      archive_create env files archive password encrypt_headers overwrite verbose volumes =
        ⟨[], .error (.valueError name)⟩ := by
  obtain ⟨k, hk⟩ := firstDupName_isSome_of_dup hp hq hne hb
  exact ⟨k, firstDupName_spec hk, by simp [archive_create, archive_create_plan, exec, hk]⟩

/-- C2 witness: two distinct concrete paths with basename `x`. -/
theorem C2_witness :
    ∃ name,
      (∃ a b, a ∈ ["a/x", "b/x"] ∧ b ∈ ["a/x", "b/x"] ∧ a ≠ b ∧
        basename a = name ∧ basename b = name) ∧
      archive_create envOk ["a/x", "b/x"] "out.7z" none false false 3 none =
        ⟨[], .error (.valueError name)⟩ :=
  C2_create_duplicate_basename envOk ["a/x", "b/x"] "out.7z" none false false 3 none
    "a/x" "b/x" (by decide) (by decide) (by decide) (by decide)

/-- C3 counterexample: `archive_extract` called with a password containing a
double quote, on an archive path where no file exists, fails with the
archive-missing `AssertionError` — not the unsupported-feature
(`NotImplementedError`) failure the claim requires for every such call. -/
theorem C3_counterexample :
    hasQuote "\"" = true ∧
    (archive_extract envOk "a.7z" none (some "\"") false (.bool true) 3).failedUnsupported
      = false ∧
    (archive_extract envOk "a.7z" none (some "\"") false (.bool true) 3).result =
      .error (.assertionError "archive does not exist at provided path") :=
  ⟨rfl, rfl, rfl⟩

/-- C3 (amended): a password containing a double quote always makes the call
fail before any process is spawned; for `archive_test` the failure is always
the unsupported-feature error, while for `archive_create` and
`archive_extract` it is the unsupported-feature error whenever every
validation check preceding the quote check passes. -/
theorem C3_quoted_password_rejected :
    (∀ env archive p verbose, hasQuote p = true →
      archive_test env archive (some p) verbose =
        ⟨[], .error (.notImplementedError "double-quote not supported")⟩) ∧
    (∀ env files archive p encrypt_headers overwrite verbose volumes,
      hasQuote p = true →
      (archive_create env files archive (some p) encrypt_headers overwrite verbose
        volumes).spawned = [] ∧
      (∃ e, (archive_create env files archive (some p) encrypt_headers overwrite verbose
        volumes).result = .error e) ∧
      (firstDupName files = none →
        env.isdir (env.abspath archive) = false →
        (overwrite || !env.isfile (env.abspath archive)) = true →
        (∀ v, volumes = some v → v ≠ "") →
        archive_create env files archive (some p) encrypt_headers overwrite verbose
          volumes =
          ⟨[], .error (.notImplementedError "double-quote not supported")⟩)) ∧
    (∀ env archive into_dir p flat overwrite verbose,
      hasQuote p = true →
      (archive_extract env archive into_dir (some p) flat overwrite
        verbose).spawned = [] ∧
      (∃ e, (archive_extract env archive into_dir (some p) flat overwrite
        verbose).result = .error e) ∧
      (env.isfile (env.abspath archive) = true →
        env.abspath (pyStrip (into_dir.getD ".")) ≠ "" →
        hasReserved (basename (env.abspath (pyStrip (into_dir.getD ".")))) = false →
        env.isfile (env.abspath (pyStrip (into_dir.getD "."))) = false →
        archive_extract env archive into_dir (some p) flat overwrite verbose =
          ⟨[], .error (.notImplementedError "double-quote not supported")⟩)) := by
  refine ⟨?_, ?_, ?_⟩
  · intro env archive p verbose hq
    simp [archive_test, archive_test_plan, exec, hasQuote_ne_empty hq, hq]
  · intro env files archive p encrypt_headers overwrite verbose volumes hq
    have hstep : ∀ command todo_paths,
        createPasswordStep command (some p) encrypt_headers todo_paths =
          .error (.notImplementedError "double-quote not supported") := by
      intro command todo_paths
      simp [createPasswordStep, hasQuote_ne_empty hq, hq]
    have herr : ∃ e, archive_create_plan env files archive (some p) encrypt_headers
        overwrite verbose volumes = .error e := by
      simp only [archive_create_plan]
      cases hfd : firstDupName files with
      | some k => exact ⟨_, rfl⟩
      | none =>
        repeat' split
        all_goals first
          | exact ⟨_, rfl⟩
          | exact ⟨_, hstep _ _⟩
    obtain ⟨e, he⟩ := herr
    have htrace : archive_create env files archive (some p) encrypt_headers overwrite
        verbose volumes = ⟨[], .error e⟩ := by
      simp only [archive_create, he, exec]
    refine ⟨by rw [htrace], ⟨e, by rw [htrace]⟩, ?_⟩
    intro hfd hdir hfile hvol
    cases volumes with
    | none => simp [archive_create, archive_create_plan, exec, hfd, hdir, hfile, hstep]
    | some v =>
      simp [archive_create, archive_create_plan, exec, hfd, hdir, hfile, hvol v rfl, hstep]
  · intro env archive into_dir p flat overwrite verbose hq
    have hpne := hasQuote_ne_empty hq
    have herr : ∃ e, archive_extract_plan env archive into_dir (some p) flat overwrite
        verbose = .error e := by
      simp only [archive_extract_plan, Option.getD_some]
      repeat' split
      all_goals exact ⟨_, rfl⟩
    obtain ⟨e, he⟩ := herr
    have htrace : archive_extract env archive into_dir (some p) flat overwrite verbose =
        ⟨[], .error e⟩ := by
      simp only [archive_extract, he, exec]
    refine ⟨by rw [htrace], ⟨e, by rw [htrace]⟩, ?_⟩
    intro harch hdir hres hfile
    simp [archive_extract, archive_extract_plan, exec, harch, hpne, hq, hdir, hres, hfile]

/-- C3 witness: the `archive_test` clause applied to a concrete quoted
password. -/
theorem C3_witness :
    archive_test envOk "a.7z" (some "x\"y") 3 =
      ⟨[], .error (.notImplementedError "double-quote not supported")⟩ :=
  C3_quoted_password_rejected.1 envOk "a.7z" "x\"y" 3 (by decide)

/-- C4: under the validity conditions (no duplicate basenames, no directory at
the archive path, no un-overwritable file, non-empty volume spec if any, valid
password if any), `archive_create` assembles exactly: executable, `a` command,
archive path, `-t7z`, `-m0=lzma2`, `-mx=9`, `-bb{verbose}`, `-bt`; then
`-aoa` iff overwrite; then one `-v{token}` per whitespace token of the volume
spec; then `-p{password}` (plus `-mhe` iff header encryption) iff a password
is given; with the absolutized input paths last. -/
theorem C4_create_command (env : Env) (files : List String) (archive : String)
    (password : Option String) (encrypt_headers overwrite : Bool) (verbose : Int)
    (volumes : Option String)
    (hdup : firstDupName files = none)
    (hdir : env.isdir (env.abspath archive) = false)
    (hfile : overwrite = true ∨ env.isfile (env.abspath archive) = false)
    (hvol : ∀ v, volumes = some v → v ≠ "")
    (hpw : ∀ p, password = some p → p ≠ "" ∧ hasQuote p = false) :
    archive_create_plan env files archive password encrypt_headers overwrite verbose
      volumes =
      .ok ([env.exePath, "a", env.abspath archive, "-t7z", "-m0=lzma2", "-mx=9",
            "-bb" ++ toString verbose, "-bt"]
        ++ (if overwrite then ["-aoa"] else [])
        ++ (volumes.elim [] (fun v => (pySplit (pyStrip v)).map (fun size => "-v" ++ size)))
        ++ (password.elim [] (fun p => ["-p" ++ p] ++ (if encrypt_headers then ["-mhe"] else [])))
        ++ files.map env.abspath) := by
  have hfile' : (overwrite || !env.isfile (env.abspath archive)) = true := by
    rcases hfile with h | h <;> simp [h]
  cases password with
  | none =>
    cases volumes with
    | none => simp [archive_create_plan, createPasswordStep, hdup, hdir, hfile']
    | some v =>
      simp [archive_create_plan, createPasswordStep, hdup, hdir, hfile', hvol v rfl]
  | some p =>
    obtain ⟨hp1, hp2⟩ := hpw p rfl
    cases volumes with
    | none => simp [archive_create_plan, createPasswordStep, hdup, hdir, hfile', hp1, hp2]
    | some v =>
      simp [archive_create_plan, createPasswordStep, hdup, hdir, hfile', hvol v rfl,
        hp1, hp2]

/-- C4 witness: a fully featured concrete create call, with the assembled
vector evaluated. -/
theorem C4_witness :
    archive_create_plan envOk ["f1", "d/f2"] "out.7z" (some "pw") true true 2
      (some " 10k 2g ") =
      .ok ["7z.exe", "a", "/abs/out.7z", "-t7z", "-m0=lzma2", "-mx=9", "-bb2", "-bt",
           "-aoa", "-v10k", "-v2g", "-ppw", "-mhe", "/abs/f1", "/abs/d/f2"] := by
  rw [C4_create_command envOk ["f1", "d/f2"] "out.7z" (some "pw") true true 2
    (some " 10k 2g ") (by decide) (by decide) (Or.inl rfl)
    (fun v h => by cases h; decide) (fun p h => by cases h; exact ⟨by decide, by decide⟩)]
  rfl

/-- C5: a call to extract whose resolved destination directory has an empty
name, a reserved character in its final path component, or a regular file
already at that path, fails with an `AssertionError` before any process is
spawned. -/
theorem C5_extract_dir_validation (env : Env) (archive : String)
    (into_dir : Option String) (password : Option String) (flat : Bool)
    (overwrite : OverwriteMode) (verbose : Int)
    (h : env.abspath (pyStrip (into_dir.getD ".")) = "" ∨
      hasReserved (basename (env.abspath (pyStrip (into_dir.getD ".")))) = true ∨
      env.isfile (env.abspath (pyStrip (into_dir.getD "."))) = true) :
    (archive_extract env archive into_dir password flat overwrite verbose).spawned = [] ∧
    ∃ msg, (archive_extract env archive into_dir password flat overwrite
      verbose).result = .error (.assertionError msg) := by
  have herr : ∃ msg, archive_extract_plan env archive into_dir password flat overwrite
      verbose = .error (.assertionError msg) := by
    simp only [archive_extract_plan]
    repeat' split
    all_goals first
      | exact ⟨_, rfl⟩
      | (rcases h with h | h | h <;> simp_all)
  obtain ⟨msg, he⟩ := herr
  have htrace : archive_extract env archive into_dir password flat overwrite verbose =
      ⟨[], .error (.assertionError msg)⟩ := by
    simp only [archive_extract, he, exec]
  exact ⟨by rw [htrace], msg, by rw [htrace]⟩

/-- C5 witness: destination `a:b` contains the reserved character `:`. -/
theorem C5_witness :
    (archive_extract envOk "a.7z" (some "a:b") none false (.bool true) 3).spawned = [] ∧
    ∃ msg, (archive_extract envOk "a.7z" (some "a:b") none false (.bool true)
      3).result = .error (.assertionError msg) :=
  C5_extract_dir_validation envOk "a.7z" (some "a:b") none false (.bool true) 3
    (Or.inr (Or.inl (by decide)))

/-- C6: a call to create whose destination archive path is an existing
directory, or an existing regular file while overwrite is false, fails with a
validation error (`ValueError` or `AssertionError`) before any process is
spawned. -/
theorem C6_create_destination_validation (env : Env) (files : List String)
    (archive : String) (password : Option String) (encrypt_headers overwrite : Bool)
    (verbose : Int) (volumes : Option String)
    (h : env.isdir (env.abspath archive) = true ∨
      (env.isfile (env.abspath archive) = true ∧ overwrite = false)) :
    (archive_create env files archive password encrypt_headers overwrite verbose
      volumes).spawned = [] ∧
    ∃ e, (archive_create env files archive password encrypt_headers overwrite verbose
      volumes).result = .error e ∧ e.isValidation = true := by
  have herr : ∃ e, archive_create_plan env files archive password encrypt_headers
      overwrite verbose volumes = .error e ∧ e.isValidation = true := by
    simp only [archive_create_plan]
    cases hfd : firstDupName files with
    | some k => exact ⟨_, rfl, rfl⟩
    | none =>
      by_cases hd : env.isdir (env.abspath archive) = true
      · rw [if_pos hd]
        exact ⟨_, rfl, rfl⟩
      · rw [if_neg hd]
        rcases h with hd' | ⟨hf, how⟩
        · exact absurd hd' hd
        · rw [if_pos (show (!(overwrite || !env.isfile (env.abspath archive))) = true by
            simp [how, hf])]
          exact ⟨_, rfl, rfl⟩
  obtain ⟨e, he, hv⟩ := herr
  have htrace : archive_create env files archive password encrypt_headers overwrite
      verbose volumes = ⟨[], .error e⟩ := by
    simp only [archive_create, he, exec]
  exact ⟨by rw [htrace], e, by rw [htrace], hv⟩

/-- C6 witness: the archive path resolves to an existing directory. -/
theorem C6_witness :
    (archive_create envAllDirs ["f1"] "out.7z" none false false 3 none).spawned = [] ∧
    ∃ e, (archive_create envAllDirs ["f1"] "out.7z" none false false 3 none).result =
      .error e ∧ e.isValidation = true :=
  C6_create_destination_validation envAllDirs ["f1"] "out.7z" none false false 3 none
    (Or.inl rfl)

/-- Shared helper: under valid inputs, the extract plan is exactly the
assembled argument vector. -/
theorem extract_plan_ok (env : Env) (archive : String) (into_dir : Option String)
    (password : Option String) (flat : Bool) (overwrite : OverwriteMode) (verbose : Int)
    (harch : env.isfile (env.abspath archive) = true)
    (hpw : password.getD sentinelPassword ≠ "")
    (hq : hasQuote (password.getD sentinelPassword) = false)
    (hdir : env.abspath (pyStrip (into_dir.getD ".")) ≠ "")
    (hres : hasReserved (basename (env.abspath (pyStrip (into_dir.getD ".")))) = false)
    (hfile : env.isfile (env.abspath (pyStrip (into_dir.getD "."))) = false)
    (how : owCode overwrite = "a" ∨ owCode overwrite = "s" ∨ owCode overwrite = "u" ∨
      owCode overwrite = "t") :
    archive_extract_plan env archive into_dir password flat overwrite verbose =
      .ok [env.exePath, if flat then "e" else "x",
           "-o" ++ env.abspath (pyStrip (into_dir.getD ".")),
           "-p" ++ password.getD sentinelPassword,
           "-ao" ++ owCode overwrite, "-bb" ++ toString verbose, "-bt",
           env.abspath archive] := by
  rcases how with h | h | h | h <;>
    simp [archive_extract_plan, harch, hpw, hq, hdir, hres, hfile, h]

/-- C7 counterexample: with the invalid overwrite mode `z` and a password
containing a double quote, extract fails with the unsupported-feature
`NotImplementedError` — which the code's own error classes separate from the
validation errors (`ValueError`/`AssertionError`) — because the quote check
precedes the overwrite-mode check; so an invalid mode does not always cause a
validation error. -/
theorem C7_counterexample :
    owCode (.str "z") ≠ "a" ∧ owCode (.str "z") ≠ "s" ∧ owCode (.str "z") ≠ "u" ∧
    owCode (.str "z") ≠ "t" ∧
    archive_extract envArch "a.7z" (some "dest") (some "\"") false (.str "z") 3 =
      ⟨[], .error (.notImplementedError "double-quote not supported")⟩ ∧
    Err.isValidation (.notImplementedError "double-quote not supported") = false :=
  ⟨by decide, by decide, by decide, by decide, rfl, rfl⟩

/-- C7 (amended): the boolean overwrite shorthands map to the mode codes `a`
(overwrite all) and `s` (skip); each of the four explicit mode codes `a`,
`s`, `u` (auto-rename extracted), `t` (auto-rename existing) is accepted as
given and lands in the `-ao` flag of the assembled vector; any other value
makes the call fail before a process is spawned, and the failure is the
mode-check validation error (a bare `AssertionError`) whenever every check
preceding the overwrite-mode check passes. -/
theorem C7_extract_overwrite_modes :
    (owCode (.bool true) = "a" ∧ owCode (.bool false) = "s") ∧
    (∀ env archive into_dir password flat overwrite verbose,
      (owCode overwrite = "a" ∨ owCode overwrite = "s" ∨ owCode overwrite = "u" ∨
        owCode overwrite = "t") →
      env.isfile (env.abspath archive) = true →
      password.getD sentinelPassword ≠ "" →
      hasQuote (password.getD sentinelPassword) = false →
      env.abspath (pyStrip (into_dir.getD ".")) ≠ "" →
      hasReserved (basename (env.abspath (pyStrip (into_dir.getD ".")))) = false →
      env.isfile (env.abspath (pyStrip (into_dir.getD "."))) = false →
      archive_extract_plan env archive into_dir password flat overwrite verbose =
        .ok [env.exePath, if flat then "e" else "x",
             "-o" ++ env.abspath (pyStrip (into_dir.getD ".")),
             "-p" ++ password.getD sentinelPassword,
             "-ao" ++ owCode overwrite, "-bb" ++ toString verbose, "-bt",
             env.abspath archive]) ∧
    (∀ env archive into_dir password flat overwrite verbose,
      owCode overwrite ≠ "a" → owCode overwrite ≠ "s" → owCode overwrite ≠ "u" →
      owCode overwrite ≠ "t" →
      ((archive_extract env archive into_dir password flat overwrite verbose).spawned =
        [] ∧
      ∃ e, (archive_extract env archive into_dir password flat overwrite
        verbose).result = .error e) ∧
      (env.isfile (env.abspath archive) = true →
       password.getD sentinelPassword ≠ "" →
       hasQuote (password.getD sentinelPassword) = false →
       env.abspath (pyStrip (into_dir.getD ".")) ≠ "" →
       hasReserved (basename (env.abspath (pyStrip (into_dir.getD ".")))) = false →
       env.isfile (env.abspath (pyStrip (into_dir.getD "."))) = false →
       archive_extract env archive into_dir password flat overwrite verbose =
         ⟨[], .error (.assertionError "")⟩)) := by
  refine ⟨⟨rfl, rfl⟩, ?_, ?_⟩
  · intro env archive into_dir password flat overwrite verbose how harch hpw hq hdir
      hres hfile
    exact extract_plan_ok env archive into_dir password flat overwrite verbose harch
      hpw hq hdir hres hfile how
  · intro env archive into_dir password flat overwrite verbose ha hs hu ht
    have herr : ∃ e, archive_extract_plan env archive into_dir password flat overwrite
        verbose = .error e := by
      simp only [archive_extract_plan]
      repeat' split
      all_goals first
        | exact ⟨_, rfl⟩
        | simp_all
    obtain ⟨e, he⟩ := herr
    have htrace : archive_extract env archive into_dir password flat overwrite
        verbose = ⟨[], .error e⟩ := by
      simp only [archive_extract, he, exec]
    refine ⟨⟨by rw [htrace], e, by rw [htrace]⟩, ?_⟩
    intro harch hpw hq hdir hres hfile
    simp [archive_extract, archive_extract_plan, exec, harch, hpw, hq, hdir, hres,
      hfile, ha, hs, hu, ht]

/-- C7 witness: the explicit mode code `u` is accepted as given, at a
concrete valid call. -/
theorem C7_witness :
    archive_extract_plan envArch "a.7z" (some "dest") (some "pw") false (.str "u") 3 =
      .ok ["7z.exe", "x", "-o/abs/dest", "-ppw", "-aou", "-bb3", "-bt", "/abs/a.7z"] := by
  rw [C7_extract_overwrite_modes.2.1 envArch "a.7z" (some "dest") (some "pw") false
    (.str "u") 3 (Or.inr (Or.inr (Or.inl rfl))) (by decide) (by decide) (by decide)
    (by decide) (by decide) (by decide)]
  rfl

/-- C8: for a valid extract call the assembled vector is the flat-extract
command `e` when flat is true and the tree-preserving command `x` otherwise,
followed by the destination flag, password flag, overwrite-mode flag,
verbosity flag, and the detailed-progress flag `-bt`, with the archive path as
the final element. -/
theorem C8_extract_command (env : Env) (archive : String) (into_dir : Option String)
    (password : Option String) (flat : Bool) (overwrite : OverwriteMode) (verbose : Int)
    (harch : env.isfile (env.abspath archive) = true)
    (hpw : password.getD sentinelPassword ≠ "")
    (hq : hasQuote (password.getD sentinelPassword) = false)
    (hdir : env.abspath (pyStrip (into_dir.getD ".")) ≠ "")
    (hres : hasReserved (basename (env.abspath (pyStrip (into_dir.getD ".")))) = false)
    (hfile : env.isfile (env.abspath (pyStrip (into_dir.getD "."))) = false)
    (how : owCode overwrite = "a" ∨ owCode overwrite = "s" ∨ owCode overwrite = "u" ∨
      owCode overwrite = "t") :
    archive_extract_plan env archive into_dir password flat overwrite verbose =
      .ok [env.exePath, if flat then "e" else "x",
           "-o" ++ env.abspath (pyStrip (into_dir.getD ".")),
           "-p" ++ password.getD sentinelPassword,
           "-ao" ++ owCode overwrite, "-bb" ++ toString verbose, "-bt",
           env.abspath archive] :=
  extract_plan_ok env archive into_dir password flat overwrite verbose
    harch hpw hq hdir hres hfile how

/-- C8 witness: a concrete flat extract with an explicit destination, the
archive path last. -/
theorem C8_witness :
    archive_extract_plan envArch "a.7z" (some "dest") (some "pw") true (.bool false) 3 =
      .ok ["7z.exe", "e", "-o/abs/dest", "-ppw", "-aos", "-bb3", "-bt", "/abs/a.7z"] :=
  C8_extract_command envArch "a.7z" (some "dest") (some "pw") true (.bool false) 3
    (by decide) (by decide) (by decide) (by decide) (by decide) (by decide)
    (Or.inr (Or.inl rfl))

/-- C9: the sentinel password is a single character, and a test or extract
call with no password substitutes it, so the assembled vector always carries
a `-p` flag. -/
theorem C9_sentinel_password :
    sentinelPassword.length = 1 ∧
    (∀ env archive verbose,
      archive_test_plan env archive none verbose =
        .ok [env.exePath, "t", env.abspath archive, "-p" ++ sentinelPassword,
             "-bb" ++ toString verbose, "-bt"]) ∧
    (∀ env archive into_dir flat overwrite verbose cmd,
      archive_extract_plan env archive into_dir none flat overwrite verbose = .ok cmd →
      ("-p" ++ sentinelPassword) ∈ cmd) := by
  have h1 : sentinelPassword ≠ "" := by decide
  have h2 : hasQuote sentinelPassword = false := by decide
  refine ⟨by decide, ?_, ?_⟩
  · intro env archive verbose
    simp [archive_test_plan, h1, h2]
  · intro env archive into_dir flat overwrite verbose cmd h
    simp only [archive_extract_plan, Option.getD_none] at h
    repeat' split at h
    all_goals cases h
    all_goals simp

/-- C9 witness: the extract clause applied at a concrete call with no
password. -/
theorem C9_witness :
    ("-p" ++ sentinelPassword) ∈
      ["7z.exe", "x", "-o/abs/.", "-p\x7f", "-aoa", "-bb3", "-bt", "/abs/a.7z"] :=
  C9_sentinel_password.2.2 envArch "a.7z" none false (.bool true) 3
    ["7z.exe", "x", "-o/abs/.", "-p\x7f", "-aoa", "-bb3", "-bt", "/abs/a.7z"] rfl

/-- Membership in the prefix command survives `createPasswordStep`. -/
theorem mem_of_createPasswordStep_ok {c todo cmd : List String} {pw : Option String}
    {eh : Bool} {x : String} (hx : x ∈ c)
    (h : createPasswordStep c pw eh todo = .ok cmd) : x ∈ cmd := by
  cases pw with
  | none =>
    injection h with h'
    subst h'
    exact List.mem_append_left _ hx
  | some p =>
    by_cases h1 : p = ""
    · simp [createPasswordStep, h1] at h
    · by_cases h2 : hasQuote p = true
      · simp [createPasswordStep, h1, h2] at h
      · simp only [createPasswordStep, h1, h2, if_neg, ite_false, Bool.false_eq_true] at h
        injection h with h'
        subst h'
        simp [hx]

theorem errOf_eq_some {x : Except Err (List String)} {e : Err} :
    errOf x = some e ↔ x = .error e := by
  cases x <;> simp [errOf]

theorem errOf_createPasswordStep (c1 c2 todo : List String) (pw : Option String)
    (eh : Bool) :
    errOf (createPasswordStep c1 pw eh todo) =
      errOf (createPasswordStep c2 pw eh todo) := by
  cases pw with
  | none => rfl
  | some p =>
    by_cases h1 : p = "" <;> by_cases h2 : hasQuote p = true <;>
      simp [createPasswordStep, h1, h2, errOf]

theorem errOf_create_plan_verbose (env : Env) (files : List String) (archive : String)
    (password : Option String) (encrypt_headers overwrite : Bool)
    (volumes : Option String) (v1 v2 : Int) :
    errOf (archive_create_plan env files archive password encrypt_headers overwrite v1
      volumes) =
      errOf (archive_create_plan env files archive password encrypt_headers overwrite v2
        volumes) := by
  simp only [archive_create_plan]
  cases hfd : firstDupName files with
  | some k => rfl
  | none =>
    repeat' split
    all_goals first
      | rfl
      | apply errOf_createPasswordStep

theorem errOf_test_plan_verbose (env : Env) (archive : String)
    (password : Option String) (v1 v2 : Int) :
    errOf (archive_test_plan env archive password v1) =
      errOf (archive_test_plan env archive password v2) := by
  simp only [archive_test_plan]
  by_cases h1 : password.getD sentinelPassword = "" <;>
    by_cases h2 : hasQuote (password.getD sentinelPassword) = true <;>
      simp [h1, h2, errOf]

theorem errOf_extract_plan_verbose (env : Env) (archive : String)
    (into_dir : Option String) (password : Option String) (flat : Bool)
    (overwrite : OverwriteMode) (v1 v2 : Int) :
    errOf (archive_extract_plan env archive into_dir password flat overwrite v1) =
      errOf (archive_extract_plan env archive into_dir password flat overwrite v2) := by
  simp only [archive_extract_plan]
  repeat' split
  all_goals rfl

/-- C10: no operation validates the verbosity argument — whichever integer is
passed, the set of validation errors is unchanged, and on success the value is
interpolated directly into the `-bb` flag of the assembled vector. -/
theorem C10_verbose_not_validated :
    (∀ env files archive password encrypt_headers overwrite volumes (v1 v2 : Int) e,
      archive_create_plan env files archive password encrypt_headers overwrite v1
        volumes = .error e ↔
      archive_create_plan env files archive password encrypt_headers overwrite v2
        volumes = .error e) ∧
    (∀ env files archive password encrypt_headers overwrite volumes (v : Int) cmd,
      archive_create_plan env files archive password encrypt_headers overwrite v
        volumes = .ok cmd →
      ("-bb" ++ toString v) ∈ cmd) ∧
    (∀ env archive password (v1 v2 : Int) e,
      archive_test_plan env archive password v1 = .error e ↔
      archive_test_plan env archive password v2 = .error e) ∧
    (∀ env archive password (v : Int) cmd,
      archive_test_plan env archive password v = .ok cmd →
      ("-bb" ++ toString v) ∈ cmd) ∧
    (∀ env archive into_dir password flat overwrite (v1 v2 : Int) e,
      archive_extract_plan env archive into_dir password flat overwrite v1 = .error e ↔
      archive_extract_plan env archive into_dir password flat overwrite v2 = .error e) ∧
    (∀ env archive into_dir password flat overwrite (v : Int) cmd,
      archive_extract_plan env archive into_dir password flat overwrite v = .ok cmd →
      ("-bb" ++ toString v) ∈ cmd) := by
  refine ⟨?_, ?_, ?_, ?_, ?_, ?_⟩
  · intro env files archive password encrypt_headers overwrite volumes v1 v2 e
    rw [← errOf_eq_some, ← errOf_eq_some,
      errOf_create_plan_verbose env files archive password encrypt_headers overwrite
        volumes v1 v2]
  · intro env files archive password encrypt_headers overwrite volumes v cmd h
    simp only [archive_create_plan] at h
    repeat' split at h
    all_goals first
      | cases h
      | (refine mem_of_createPasswordStep_ok ?_ h; simp)
  · intro env archive password v1 v2 e
    rw [← errOf_eq_some, ← errOf_eq_some,
      errOf_test_plan_verbose env archive password v1 v2]
  · intro env archive password v cmd h
    simp only [archive_test_plan] at h
    repeat' split at h
    all_goals cases h
    all_goals simp
  · intro env archive into_dir password flat overwrite v1 v2 e
    rw [← errOf_eq_some, ← errOf_eq_some,
      errOf_extract_plan_verbose env archive into_dir password flat overwrite v1 v2]
  · intro env archive into_dir password flat overwrite v cmd h
    simp only [archive_extract_plan] at h
    repeat' split at h
    all_goals cases h
    all_goals simp

/-- C10 witness: an out-of-range verbosity `7` is accepted by create and lands
in the `-bb` flag. -/
theorem C10_witness :
    ("-bb" ++ toString (7 : Int)) ∈
      ["7z.exe", "a", "/abs/out.7z", "-t7z", "-m0=lzma2", "-mx=9", "-bb7", "-bt",
       "/abs/f1"] :=
  C10_verbose_not_validated.2.1 envOk ["f1"] "out.7z" none false false none 7
    ["7z.exe", "a", "/abs/out.7z", "-t7z", "-m0=lzma2", "-mx=9", "-bb7", "-bt",
     "/abs/f1"] rfl

end Py7z
